import Mathlib

/-!
Verification model of the ReviewLens review-analysis client
(`src/App.tsx`, `src/constants.ts`).

The client is a single React component holding four pieces of state
(`review`, `loading`, `result`, `error`) and one async operation
`analyzeReview` that issues a single call to an external model service and
stores either the JSON-parsed payload or an error message.  We embed the
state, the two phases of `analyzeReview` (the synchronous prefix before the
`await`, and the continuation that runs when the call settles), and the
UI-event loop (typing into the textarea, clicking the button — which is
disabled while loading or when the trimmed input is empty — and delivery of
the call's outcome).
-/

namespace ReviewLens

/-- JSON values as produced by the JavaScript `JSON.parse` the client uses
at `App.tsx` line 69.  Numbers are modelled as rationals. -/
inductive Json where
  | null : Json
  | bool (b : Bool) : Json
  | num (q : ℚ) : Json
  | str (s : String) : Json
  | arr (elems : List Json) : Json
  | obj (fields : List (String × Json)) : Json

/-- One property entry of the response schema in `constants.ts`. -/
structure SchemaProperty where
  name : String
  typ : String
  description : String
  itemsTyp : Option String := none

/-- `ANALYSIS_SCHEMA.properties` from `constants.ts` lines 5-31. -/
def ANALYSIS_SCHEMA_properties : List SchemaProperty :=
  [ { name := "sentiment", typ := "STRING",
      description := "Categorize the overall sentiment as \x27Positive\x27, \x27Negative\x27, \x27Neutral\x27, or \x27Mixed\x27." },
    { name := "confidence", typ := "NUMBER",
      description := "Confidence score from 0.0 to 1.0." },
    { name := "top_themes", typ := "ARRAY",
      description := "Specific features mentioned (e.g., Battery Life, Durability, Price).",
      itemsTyp := some "STRING" },
    { name := "tone", typ := "STRING",
      description := "Underlying emotions (e.g., Frustration, Satisfaction, Disappointment)." },
    { name := "is_sarcastic", typ := "BOOLEAN",
      description := "Identify if the user is being sarcastic." },
    { name := "summary", typ := "STRING",
      description := "One sentence summary of the reviewer\x27s main point." } ]

/-- `ANALYSIS_SCHEMA.required` from `constants.ts` line 32: the six fields
the external service is asked to always emit. -/
def ANALYSIS_SCHEMA_required : List String :=
  ["sentiment", "confidence", "top_themes", "tone", "is_sarcastic", "summary"]

/-- Emptiness of the JavaScript `review.trim()`: trimming leading and
trailing whitespace leaves the empty string exactly when every character of
the string is whitespace.  The code only ever uses the trimmed string
through this truthiness test (`App.tsx` lines 48 and 147). -/
def trimmedEmpty (s : String) : Bool :=
  s.data.all (fun c => c.isWhitespace)

/-- Field lookup on a JSON value: `some v` when the value is an object with
a field of that name. -/
def Json.lookupField (j : Json) (k : String) : Option Json :=
  match j with
  | .obj fields => fields.lookup k
  | _ => none

/-- Whether a JSON value is an object carrying the given field. -/
def Json.hasField (j : Json) (k : String) : Bool :=
  (j.lookupField k).isSome

/-- Whether a parsed payload carries every field named in
`ANALYSIS_SCHEMA.required`. -/
def hasAllRequired (j : Json) : Bool :=
  ANALYSIS_SCHEMA_required.all (fun k => j.hasField k)

/-- The numeric `confidence` field of a parsed payload, when present. -/
def confidenceOf (j : Json) : Option ℚ :=
  match j.lookupField "confidence" with
  | some (.num q) => some q
  | _ => none

/-- Whether a parsed payload carries a numeric `confidence` field lying in
the closed interval [0, 1]. -/
def confidenceInRange (j : Json) : Bool :=
  match confidenceOf j with
  | some q => decide ((0 : ℚ) ≤ q) && decide (q ≤ (1 : ℚ))
  | none => false

/-- The component state of `App` (`App.tsx` lines 42-45): the four
`useState` fields.  `inFlight` instruments the number of outstanding
`ai.models.generateContent` calls (issued at line 56); it is ghost state
used to express the single-flight contract. -/
structure AppState where
  review : String
  loading : Bool
  result : Option Json
  error : Option String
  inFlight : Nat

/-- Message thrown at `App.tsx` line 71 when the call resolves without a
textual payload. -/
def noAnalysisMsg : String := "No analysis received from the model."

/-- Fallback message at `App.tsx` line 75 used when the caught rejection is
not an `Error` instance. -/
def fallbackMsg : String := "An unexpected error occurred during analysis."

/-- How the awaited `generateContent` call at `App.tsx` line 56 settles.
`resolved text parsed` is resolution with textual payload `text` (an absent
`response.text` is the empty string, which the guard at line 68 treats the
same way); `parsed` is the outcome of `JSON.parse text`: `.ok j` when the
text parses to the JSON value `j`, `.error m` when `JSON.parse` throws a
`SyntaxError` with message `m`.  `rejected message` is a rejection of the
call itself; `message` is `some m` when the rejected value is an `Error`
instance with message `m`, and `none` otherwise. -/
inductive CallOutcome where
  | resolved (text : String) (parsed : Except String Json) : CallOutcome
  | rejected (message : Option String) : CallOutcome

/-- The synchronous prefix of `analyzeReview` (`App.tsx` lines 47-52): the
guard `if (!review.trim()) return;` followed by
`setLoading(true); setError(null); setResult(null);` and the dispatch of
one request. -/
def analyzeStart (s : AppState) : AppState :=
  if trimmedEmpty s.review then s
  else { s with loading := true, error := none, result := none,
                inFlight := s.inFlight + 1 }

/-- The state update performed once the awaited call settles
(`App.tsx` lines 67-75): a non-empty payload is `JSON.parse`d and stored
via `setResult` (a `SyntaxError` is caught and its message stored via
`setError`); an empty payload turns into the thrown-and-caught
"no analysis received" error; a rejection stores the rejection's message
when it is an `Error`, else the fallback message. -/
def applyOutcome (s : AppState) (o : CallOutcome) : AppState :=
  match o with
  | .resolved text parsed =>
      if text.isEmpty then { s with error := some noAnalysisMsg }
      else
        match parsed with
        | .ok j => { s with result := some j }
        | .error m => { s with error := some m }
  | .rejected message =>
      match message with
      | some m => { s with error := some m }
      | none => { s with error := some fallbackMsg }

/-- The continuation of `analyzeReview` after the `await`: the branch
updates of lines 67-75 followed by the `finally` block's
`setLoading(false)` (line 77).  The outstanding call is consumed. -/
def analyzeComplete (s : AppState) (o : CallOutcome) : AppState :=
  let t := applyOutcome s o
  { t with loading := false, inFlight := s.inFlight - 1 }

/-- The `disabled` condition of the run-analysis button
(`App.tsx` line 147): `loading || !review.trim()`. -/
def buttonDisabled (s : AppState) : Bool :=
  s.loading || trimmedEmpty s.review

/-- UI events driving the component: editing the textarea (line 136),
clicking the run-analysis button (line 146), and delivery of the awaited
call's outcome. -/
inductive UIEvent where
  | setReview (text : String) : UIEvent
  | click : UIEvent
  | complete (o : CallOutcome) : UIEvent

/-- One step of the event loop.  A click on the disabled button does
nothing; an enabled click runs the synchronous prefix of `analyzeReview`;
an outcome is delivered only when a call is actually outstanding. -/
def step (s : AppState) (e : UIEvent) : AppState :=
  match e with
  | .setReview t => { s with review := t }
  | .click => if buttonDisabled s then s else analyzeStart s
  | .complete o => if s.inFlight = 0 then s else analyzeComplete s o

/-- Initial component state (`App.tsx` lines 42-45): empty input, not
loading, no result, no error. -/
def initState : AppState :=
  { review := "", loading := false, result := none, error := none, inFlight := 0 }

/-- The state after a sequence of UI events starting from the initial
state. -/
def run (events : List UIEvent) : AppState :=
  events.foldl step initState

/-- Inductive invariant of the event loop: at most one call is
outstanding, a call is outstanding exactly while `loading`, result and
error are cleared while `loading`, and result and error are never both
present. -/
def Inv (s : AppState) : Prop :=
  s.inFlight ≤ 1 ∧
  (s.loading = true ↔ s.inFlight = 1) ∧
  (s.loading = true → s.result = none ∧ s.error = none) ∧
  (s.result = none ∨ s.error = none)

/-- A parsed payload with all six required fields (confidence 1). -/
def samplePayload : Json :=
  Json.obj [("sentiment", Json.str "Mixed"), ("confidence", Json.num 1),
            ("top_themes", Json.arr [Json.str "Battery Life"]),
            ("tone", Json.str "Sarcastic"), ("is_sarcastic", Json.bool true),
            ("summary", Json.str "Mixed feelings about the product.")]

/-- A parsed payload with all six required fields whose confidence is 2,
outside [0, 1]. -/
def overConfidencePayload : Json :=
  Json.obj [("sentiment", Json.str "Positive"), ("confidence", Json.num 2),
            ("top_themes", Json.arr []), ("tone", Json.str "Calm"),
            ("is_sarcastic", Json.bool false), ("summary", Json.str "Fine.")]

/-- Trace: type a review, click, and receive the JSON-parseable payload
`\x7b\x7d` (an object with none of the required fields). -/
def emptyObjTrace : List UIEvent :=
  [UIEvent.setReview "great", UIEvent.click,
   UIEvent.complete (CallOutcome.resolved "\x7b\x7d" (Except.ok (Json.obj [])))]

/-- Trace: type a review, click, and receive a payload whose confidence
field is 2. -/
def overConfidenceTrace : List UIEvent :=
  [UIEvent.setReview "wow", UIEvent.click,
   UIEvent.complete (CallOutcome.resolved "payload" (Except.ok overConfidencePayload))]

/-- Trace: type a review and click, leaving a call outstanding. -/
def loadingTrace : List UIEvent :=
  [UIEvent.setReview "hi", UIEvent.click]

lemma inv_init : Inv initState := by
  simp [Inv, initState]

lemma inv_step (s : AppState) (e : UIEvent) (h : Inv s) : Inv (step s e) := by
  obtain ⟨h1, h2, h3, h4⟩ := h
  cases e with
  | setReview t =>
      exact ⟨h1, h2, h3, h4⟩
  | click =>
      by_cases hd : buttonDisabled s = true
      · simpa [step, hd] using ⟨h1, h2, h3, h4⟩
      · have hb : s.loading = false ∧ trimmedEmpty s.review = false := by
          simpa [buttonDisabled] using hd
        have hz : s.inFlight = 0 := by
          rcases Nat.lt_or_ge s.inFlight 1 with hlt | hge
          · omega
          · exact absurd (h2.mpr (by omega)) (by simp [hb.1])
        simp [step, buttonDisabled, hb.1, hb.2, analyzeStart, Inv, hz]
  | complete o =>
      by_cases hz : s.inFlight = 0
      · simpa [step, hz] using ⟨h1, h2, h3, h4⟩
      · have hone : s.inFlight = 1 := by omega
        have hl : s.loading = true := h2.mpr hone
        obtain ⟨hr, he⟩ := h3 hl
        cases o with
        | resolved text parsed =>
            by_cases ht : text.isEmpty = true
            · simp [step, hz, analyzeComplete, applyOutcome, ht, Inv, hone, hr, he]
            · cases parsed with
              | ok j =>
                  simp [step, hz, analyzeComplete, applyOutcome, ht, Inv, hone, hr, he]
              | error m =>
                  simp [step, hz, analyzeComplete, applyOutcome, ht, Inv, hone, hr, he]
        | rejected message =>
            cases message with
            | some m =>
                simp [step, hz, analyzeComplete, applyOutcome, Inv, hone, hr, he]
            | none =>
                simp [step, hz, analyzeComplete, applyOutcome, Inv, hone, hr, he]

lemma inv_foldl (s : AppState) (events : List UIEvent) (h : Inv s) :
    Inv (events.foldl step s) := by
  induction events generalizing s with
  | nil => exact h
  | cons e rest ih => exact ih _ (inv_step s e h)

lemma inv_run (events : List UIEvent) : Inv (run events) :=
  inv_foldl initState events inv_init

/-- C1: for every invocation of `analyzeReview` with non-empty trimmed
input, whatever outcome the external call settles with, the `finally`
block leaves the loading state, and the final state holds a result or an
error (Success or Error, never stuck in Loading). -/
theorem runAnalysis_leaves_loading (s : AppState) (o : CallOutcome)
    (h : trimmedEmpty s.review = false) :
    (analyzeComplete (analyzeStart s) o).loading = false ∧
    ((analyzeComplete (analyzeStart s) o).result.isSome = true ∨
     (analyzeComplete (analyzeStart s) o).error.isSome = true) := by
  refine ⟨rfl, ?_⟩
  cases o with
  | resolved text parsed =>
      by_cases ht : text.isEmpty = true
      · simp [analyzeComplete, applyOutcome, ht]
      · cases parsed with
        | ok j => simp [analyzeComplete, applyOutcome, ht]
        | error m => simp [analyzeComplete, applyOutcome, ht]
  | rejected message =>
      cases message with
      | some m => simp [analyzeComplete, applyOutcome]
      | none => simp [analyzeComplete, applyOutcome]

theorem runAnalysis_leaves_loading_witness :
    (analyzeComplete (analyzeStart { initState with review := "ok" })
       (CallOutcome.rejected none)).loading = false :=
  (runAnalysis_leaves_loading { initState with review := "ok" }
     (CallOutcome.rejected none) (by decide)).1

/-- C2: for every input with non-empty trimmed form, the synchronous
prefix of `analyzeReview` clears any previous error and result and enters
loading, regardless of the prior state. -/
theorem runAnalysis_clears_and_enters_loading (s : AppState)
    (h : trimmedEmpty s.review = false) :
    (analyzeStart s).loading = true ∧ (analyzeStart s).error = none ∧
    (analyzeStart s).result = none ∧ (analyzeStart s).review = s.review := by
  simp [analyzeStart, h]

theorem runAnalysis_clears_witness :
    (analyzeStart { review := "second try", loading := false,
                    result := some (Json.obj []), error := some "old failure",
                    inFlight := 0 }).error = none :=
  (runAnalysis_clears_and_enters_loading
     { review := "second try", loading := false, result := some (Json.obj []),
       error := some "old failure", inFlight := 0 } (by decide)).2.1

/-- C3: for every input that is empty or whitespace-only after trimming,
invoking the operation is a no-op (the state is unchanged, no request is
issued), and a click on the disabled button is likewise a no-op. -/
theorem empty_input_noop (s : AppState) (h : trimmedEmpty s.review = true) :
    analyzeStart s = s ∧ step s UIEvent.click = s := by
  constructor
  · simp [analyzeStart, h]
  · simp [step, buttonDisabled, h, analyzeStart]

theorem empty_input_noop_witness :
    analyzeStart { review := "   ", loading := false, result := none,
                   error := none, inFlight := 0 }
      = { review := "   ", loading := false, result := none,
          error := none, inFlight := 0 } :=
  (empty_input_noop { review := "   ", loading := false, result := none,
                      error := none, inFlight := 0 } (by decide)).1

/-- C4: if the external call resolves with a non-empty payload that parses
into the six required fields, the final state holds exactly the parsed
value as the result and any prior error is cleared. -/
theorem parseable_payload_success (s : AppState) (text : String) (j : Json)
    (h : trimmedEmpty s.review = false) (ht : text.isEmpty = false)
    (hj : hasAllRequired j = true) :
    (analyzeComplete (analyzeStart s)
       (CallOutcome.resolved text (Except.ok j))).result = some j ∧
    (analyzeComplete (analyzeStart s)
       (CallOutcome.resolved text (Except.ok j))).error = none := by
  simp [analyzeComplete, applyOutcome, analyzeStart, h, ht]

theorem parseable_payload_success_witness :
    (analyzeComplete (analyzeStart { initState with review := "great phone" })
       (CallOutcome.resolved "payload" (Except.ok samplePayload))).result
      = some samplePayload :=
  (parseable_payload_success { initState with review := "great phone" }
     "payload" samplePayload (by decide) (by decide) (by decide)).1

/-- C5 counterexample: after a full round trip whose payload is the
JSON-parseable text for an object with none of the six required fields,
the final state is not Error: the error is absent and the partial object
is held as the result. -/
theorem missing_fields_accepted :
    hasAllRequired (Json.obj []) = false ∧
    (run emptyObjTrace).error = none ∧
    (run emptyObjTrace).result = some (Json.obj []) :=
  ⟨rfl, rfl, rfl⟩

/-- C5 amended: the client validates only JSON well-formedness, not the
required fields.  A payload on which `JSON.parse` throws yields Error with
no partial result; a payload that parses as JSON is stored as the result
unconditionally, the six-field requirement being delegated to the external
service through `ANALYSIS_SCHEMA.required`. -/
theorem parse_failure_surfaces_error (s : AppState) (text : String)
    (h : trimmedEmpty s.review = false) (ht : text.isEmpty = false) :
    (∀ m, (analyzeComplete (analyzeStart s)
             (CallOutcome.resolved text (Except.error m))).error = some m ∧
          (analyzeComplete (analyzeStart s)
             (CallOutcome.resolved text (Except.error m))).result = none) ∧
    (∀ j, (analyzeComplete (analyzeStart s)
             (CallOutcome.resolved text (Except.ok j))).result = some j) := by
  constructor
  · intro m
    simp [analyzeComplete, applyOutcome, analyzeStart, h, ht]
  · intro j
    simp [analyzeComplete, applyOutcome, analyzeStart, h, ht]

theorem parse_failure_surfaces_error_witness :
    (analyzeComplete (analyzeStart { initState with review := "r" })
       (CallOutcome.resolved "not json" (Except.error "Unexpected token"))).error
      = some "Unexpected token" :=
  ((parse_failure_surfaces_error { initState with review := "r" } "not json"
      (by decide) (by decide)).1 "Unexpected token").1

/-- C6: if the external call resolves with an empty textual payload, the
final state is Error holding the "no analysis received" message, no result
is retained, and loading is left. -/
theorem empty_payload_error (s : AppState) (parsed : Except String Json)
    (h : trimmedEmpty s.review = false) :
    (analyzeComplete (analyzeStart s)
       (CallOutcome.resolved "" parsed)).error = some noAnalysisMsg ∧
    (analyzeComplete (analyzeStart s)
       (CallOutcome.resolved "" parsed)).result = none ∧
    (analyzeComplete (analyzeStart s)
       (CallOutcome.resolved "" parsed)).loading = false := by
  have he : "".isEmpty = true := rfl
  refine ⟨?_, ?_, rfl⟩ <;> simp [analyzeComplete, applyOutcome, analyzeStart, h, he]

theorem empty_payload_error_witness :
    (analyzeComplete (analyzeStart { initState with review := "meh" })
       (CallOutcome.resolved "" (Except.error "unused"))).error
      = some noAnalysisMsg :=
  (empty_payload_error { initState with review := "meh" }
     (Except.error "unused") (by decide)).1

/-- C7: if the external call rejects, the final state is Error holding the
rejection's message when the rejected value is an `Error` carrying one,
else the generic fallback message, and no result is retained. -/
theorem rejection_error (s : AppState) (message : Option String)
    (h : trimmedEmpty s.review = false) :
    (analyzeComplete (analyzeStart s)
       (CallOutcome.rejected message)).error = some (message.getD fallbackMsg) ∧
    (analyzeComplete (analyzeStart s)
       (CallOutcome.rejected message)).result = none := by
  cases message with
  | some m => simp [analyzeComplete, applyOutcome, analyzeStart, h]
  | none => simp [analyzeComplete, applyOutcome, analyzeStart, h]

theorem rejection_error_witness :
    (analyzeComplete (analyzeStart { initState with review := "bad network" })
       (CallOutcome.rejected (some "quota exceeded"))).error
      = some "quota exceeded" :=
  (rejection_error { initState with review := "bad network" }
     (some "quota exceeded") (by decide)).1

/-- C8 counterexample: a reachable Success state holds a result with all
six fields whose confidence is 2, outside [0, 1]: the client performs no
range check on the payload it stores. -/
theorem confidence_out_of_range_accepted :
    (run overConfidenceTrace).result = some overConfidencePayload ∧
    hasAllRequired overConfidencePayload = true ∧
    confidenceInRange overConfidencePayload = false :=
  ⟨rfl, rfl, by decide⟩

/-- C8 amended: the client stores the payload verbatim, so the result held
in the Success state has its confidence in [0, 1] exactly when the
payload's confidence is; the range itself is only requested of the
external service through the schema's description, not enforced
client-side. -/
theorem confidence_in_range_preserved (s : AppState) (text : String) (j : Json)
    (h : trimmedEmpty s.review = false) (ht : text.isEmpty = false)
    (hq : confidenceInRange j = true) :
    ∀ r, (analyzeComplete (analyzeStart s)
            (CallOutcome.resolved text (Except.ok j))).result = some r →
      confidenceInRange r = true := by
  intro r hr
  simp [analyzeComplete, applyOutcome, analyzeStart, h, ht] at hr
  rw [← hr]
  exact hq

theorem confidence_in_range_preserved_witness :
    confidenceInRange samplePayload = true :=
  confidence_in_range_preserved { initState with review := "nice" } "p"
    samplePayload (by decide) (by decide) (by decide) samplePayload rfl

/-- C9: in every reachable state at most one call is outstanding, a call
is outstanding exactly while loading, and while loading a click on the
(disabled) button is a no-op, so no new invocation can start while a
request is in flight. -/
theorem single_flight (events : List UIEvent) :
    (run events).inFlight ≤ 1 ∧
    ((run events).loading = true ↔ (run events).inFlight = 1) ∧
    ((run events).loading = true → step (run events) UIEvent.click = run events) := by
  obtain ⟨h1, h2, _, _⟩ := inv_run events
  refine ⟨h1, h2, ?_⟩
  intro hl
  simp [step, buttonDisabled, hl]

theorem single_flight_witness :
    (run loadingTrace).loading = true ∧
    step (run loadingTrace) UIEvent.click = run loadingTrace :=
  ⟨rfl, (single_flight loadingTrace).2.2 rfl⟩

/-- C10: in every state reachable by any sequence of events, the result
and the error are never both present. -/
theorem result_error_mutually_exclusive (events : List UIEvent) :
    (run events).result = none ∨ (run events).error = none :=
  (inv_run events).2.2.2

end ReviewLens
